import Mathlib

/-
Verification of the ShelfLife rule evaluation and action scheduling engine.

Shallow embedding of:
  backend/app/rule_engine.py   (RuleEngine: evaluate_condition, evaluate_conditions,
                                execute_immediate_actions, execute_delayed_action)
  backend/app/routers/tasks.py (scan_rule, movie branch: candidate creation)
  backend/app/scheduler.py     (execute_pending_candidates)

Modelling conventions:
  - Python floats are modelled as exact rationals (Rat); the engine only
    compares numbers, so rounding plays no role in any property below.
  - Python None is the Value.vnull constructor; dict.get returning None is
    collapsed with "key absent" (both behave identically in the engine).
  - Collaborator calls (Plex/Radarr/Sonarr HTTP clients) are modelled as
    behaviour functions returning Except String _ : `.error e` models a raised
    exception with message e, `.ok r` a normal return.  Every execution
    additionally returns the list of collaborator calls it made, so that
    frame properties ("no call happens") are expressible.
  - Wall-clock time is an abstract day counter (Nat); datetime.now() is the
    parameter `now`, timedelta(days=d) is (+ d).
-/

namespace ShelfLife

/-- JSON-ish runtime value as it appears in condition values and item facts. -/
inductive Value where
  | vnum : Rat → Value
  | vstr : String → Value
  | vlist : List String → Value
  | vbool : Bool → Value
  | vnull : Value
deriving DecidableEq

/-- Item facts: the per-item dict assembled by the Plex integration. -/
def Facts := List (String × Value)

instance : DecidableEq Facts := by
  unfold Facts
  infer_instance

/-- One rule condition, as stored in the rule's conditions_json. -/
structure Condition where
  field : String := ""
  operator : String := ""
  value : Option Value := none
deriving DecidableEq

/-- Structural string helpers (kernel-reducible, unlike the String library's
well-founded-recursion loops), used to model Python str operations. -/
def startsWithList : List Char → List Char → Bool
  | _, [] => true
  | [], _ :: _ => false
  | a :: as, b :: bs => a == b && startsWithList as bs

def hasSubList : List Char → List Char → Bool
  | [], pat => pat.isEmpty
  | c :: rest, pat => startsWithList (c :: rest) pat || hasSubList rest pat

/-- Substring test, modelling Python's `pat in s`. -/
def containsSub (s pat : String) : Bool :=
  hasSubList s.toList pat.toList

/-- Split-at-first occurrence of a character; none when absent. -/
def splitAtFirstChar (ch : Char) : List Char → Option (List Char × List Char)
  | [] => none
  | c :: rest =>
      if c == ch then some ([], rest)
      else match splitAtFirstChar ch rest with
        | none => none
        | some (a, b) => some (c :: a, b)

/-- Field-name suffix after the first dot, modelling
`field.split(".", 1)[1]` guarded by `"." in field`. -/
def fieldKey (field : String) : String :=
  match splitAtFirstChar '.' field.toList with
  | none => field
  | some (_, suffix) => String.mk suffix

def dropLeadingWS : List Char → List Char
  | [] => []
  | c :: rest => if c.isWhitespace then dropLeadingWS rest else c :: rest

/-- Python str.strip(). -/
def trimStr (s : String) : String :=
  String.mk ((dropLeadingWS ((dropLeadingWS s.toList).reverse)).reverse)

/-- Python str.lower() (ASCII, as used for collection names). -/
def lowerStr (s : String) : String :=
  String.mk (s.toList.map Char.toLower)

/-- Python str.upper() (used on the logic token). -/
def upperStr (s : String) : String :=
  String.mk (s.toList.map Char.toUpper)

def splitOnChar (ch : Char) : List Char → List (List Char)
  | [] => [[]]
  | c :: rest =>
      let r := splitOnChar ch rest
      if c == ch then [] :: r
      else match r with
        | [] => [[c]]
        | h :: t => (c :: h) :: t

/-- Replacement of all (non-overlapping, left-to-right) occurrences, modelling
Python str.replace; the fuel is the input length, which suffices for a
non-empty pattern. -/
def replaceFuel : Nat → List Char → List Char → List Char → List Char
  | 0, l, _, _ => l
  | _ + 1, [], _, _ => []
  | fuel + 1, c :: rest, pat, rep =>
      if !pat.isEmpty && startsWithList (c :: rest) pat then
        rep ++ replaceFuel fuel ((c :: rest).drop pat.length) pat rep
      else c :: replaceFuel fuel rest pat rep

def replaceStr (s pat rep : String) : String :=
  String.mk (replaceFuel s.toList.length s.toList pat.toList rep.toList)

/-- Fact lookup, modelling item_data.get(key).  A stored Python None and a
missing key both surface as none (the engine treats them identically). -/
def getFact (d : Facts) (k : String) : Option Value :=
  match List.lookup k d with
  | some Value.vnull => none
  | some v => some v
  | none => none

/-- Numeric coercion, modelling float(x).  Strings are parsed as plain decimal
literals (optional sign, digits, optional fractional part, surrounding
whitespace ignored); anything else raises ValueError/TypeError, i.e. none. -/
def digitsToNat (l : List Char) : Nat :=
  l.foldl (fun n c => n * 10 + (c.toNat - 48)) 0

def parseDecimal (s : String) : Option Rat :=
  let t := (trimStr s).toList
  let (sign, t) : Rat × List Char :=
    match t with
    | '-' :: rest => (-1, rest)
    | '+' :: rest => (1, rest)
    | _ => (1, t)
  match splitOnChar '.' t with
  | [ip] =>
      if !ip.isEmpty && ip.all Char.isDigit then
        some (sign * digitsToNat ip)
      else none
  | [ip, fp] =>
      if (!ip.isEmpty || !fp.isEmpty)
          && ip.all Char.isDigit && fp.all Char.isDigit then
        some (sign * ((digitsToNat ip : Rat)
          + (digitsToNat fp : Rat) / ((10 : Rat) ^ fp.length)))
      else none
  | _ => none

def toNum : Value → Option Rat
  | Value.vnum r => some r
  | Value.vbool b => some (if b then 1 else 0)
  | Value.vstr s => parseDecimal s
  | Value.vlist _ => none
  | Value.vnull => none

/-- Python truthiness of a runtime value. -/
def truthy : Value → Bool
  | Value.vnum r => decide (r ≠ 0)
  | Value.vstr s => decide (s.length ≠ 0)
  | Value.vlist l => !l.isEmpty
  | Value.vbool b => b
  | Value.vnull => false

/-- Python str() rendering used when an IN/NOT_IN value is not a list.  In the
application the value is a string there; the remaining cases are rendered
schematically (no property below depends on them). -/
def valueStr : Value → String
  | Value.vstr s => s
  | Value.vnum r => toString r
  | Value.vbool b => if b then "True" else "False"
  | Value.vlist _ => "[]"
  | Value.vnull => "None"

/-- RuleEngine.evaluate_condition (rule_engine.py lines 16-119). -/
def evaluate_condition (cond : Condition) (item_data : Facts) : Bool :=
  let field := cond.field
  let op := cond.operator
  let value := cond.value
  let field_key := fieldKey field
  let field_value := getFact item_data field_key
  if op = ">" ∨ op = ">=" ∨ op = "<" ∨ op = "<=" ∨ op = "=" ∨ op = "!=" then
    -- try-block: any float() failure is caught and yields False
    let fieldNum? : Option Rat :=
      match field_value with
      | none =>
          if containsSub field_key "lastPlayedDays"
              ∨ containsSub field_key "lastWatchedEpisodeDays" then
            if op = ">" ∨ op = ">=" then some 999999 else some 0
          else none
      | some v => toNum v
    match fieldNum? with
    | none => false
    | some field_num =>
        let valueNum? : Option Rat :=
          match value with
          | none => some 0
          | some v => toNum v
        match valueNum? with
        | none => false
        | some value_num =>
            if op = ">" then decide (field_num > value_num)
            else if op = ">=" then decide (field_num ≥ value_num)
            else if op = "<" then decide (field_num < value_num)
            else if op = "<=" then decide (field_num ≤ value_num)
            else if op = "=" then decide (field_num = value_num)
            else decide (field_num ≠ value_num)
  else if op = "IS_TRUE" then
    match field_value with
    | none => false
    | some v => truthy v
  else if op = "IS_FALSE" then
    match field_value with
    | none => true
    | some v => !truthy v
  else if op = "IN" then
    match field_value with
    | some (Value.vlist fv) =>
        match value with
        | none => false
        | some v =>
            if !truthy v then false
            else match v with
              | Value.vlist vs =>
                  vs.any (fun x => decide (x.length ≠ 0) && fv.contains x)
              | _ =>
                  let value_str := trimStr (valueStr v)
                  fv.any (fun c =>
                    decide (c.length ≠ 0)
                      && lowerStr value_str == lowerStr (trimStr c))
    | _ => false
  else if op = "NOT_IN" then
    match field_value with
    | some (Value.vlist fv) =>
        match value with
        | none => true
        | some v =>
            if !truthy v then true
            else match v with
              | Value.vlist vs =>
                  !(vs.any (fun x => decide (x.length ≠ 0) && fv.contains x))
              | _ =>
                  let value_str := trimStr (valueStr v)
                  !(fv.contains value_str)
    | _ => false
  else
    false

/-- RuleEngine.evaluate_conditions (rule_engine.py lines 121-131). -/
def evaluate_conditions (conditions : List Condition) (logic : String)
    (item_data : Facts) : Bool :=
  if conditions.isEmpty then false
  else
    let results := conditions.map (fun c => evaluate_condition c item_data)
    if upperStr logic = "OR" then results.any id else results.all id

/-- Plex collaborator behaviour (integration methods used by the engine).
Each method either raises (.error message) or returns its bool result. -/
structure PlexBehavior where
  add_to_collection : String → String → String → Except String Bool
  remove_from_collection : String → String → String → Except String Bool
  set_title_format : String → String → String → Except String Bool
  clear_title_format : String → String → Except String Bool
  delete_item : String → Except String Bool

/-- Radarr collaborator behaviour. find_movie_by_title returns the movie id
when found; delete_movie returns (success, message). -/
structure RadarrBehavior where
  find_movie_by_title : String → Except String (Option Nat)
  delete_movie : Nat → Bool → Except String (Bool × String)

/-- Sonarr collaborator behaviour, mirroring Radarr for series. -/
structure SonarrBehavior where
  find_series_by_title : String → Except String (Option Nat)
  delete_series : Nat → Bool → Except String (Bool × String)

/-- RuleEngine.__init__: radarr/sonarr are None when unconfigured. -/
structure Engine where
  plex : PlexBehavior
  radarr : Option RadarrBehavior := none
  sonarr : Option SonarrBehavior := none

/-- Record of one collaborator invocation, used to state frame properties. -/
inductive Call where
  | addToCollection (item_key collection_name item_type : String)
  | removeFromCollection (item_key collection_name item_type : String)
  | setTitleFormat (item_key title_format item_type : String)
  | clearTitleFormat (item_key item_type : String)
  | deleteItem (item_key : String)
  | findMovieByTitle (title : String)
  | deleteMovie (id : Nat) (delete_files : Bool)
  | findSeriesByTitle (title : String)
  | deleteSeries (id : Nat) (delete_files : Bool)
deriving DecidableEq

/-- One action dict.  The .get defaults of the Python code are the field
defaults here; an action dict lacking "type" behaves like an unrecognized
type and is subsumed by an arbitrary unrecognized string. -/
structure Action where
  type : String := ""
  delay_days : Nat := 0
  collection_name : String := ""
  title_format : String := ""
deriving DecidableEq

/-- Result record produced per executed action. -/
structure ActionResult where
  action_type : String
  status : String
  message : String
deriving DecidableEq

/-- Python max(delay_days list, default=0). -/
def maxDelay (actions : List Action) : Nat :=
  (actions.map (fun a => a.delay_days)).foldl Nat.max 0

/-- Original title computed at the top of execute_immediate_actions
(rule_engine.py lines 146-154); none models Python None. -/
def originalTitle (item_type : String) (item_data : Option Facts) : Option String :=
  match item_data with
  | none => none
  | some d =>
      if d.isEmpty then none
      else if item_type = "movie" then
        some (match getFact d "title" with
              | some (Value.vstr s) => s
              | _ => "")
      else if item_type = "season" then
        some (match getFact d "season_title" with
              | some (Value.vstr s) => s
              | _ => "")
      else none

/-- Date formatting (strftime) on the abstract day clock: the ISO and the
readable rendering are distinguished but otherwise schematic. -/
def formatDateISO (day : Nat) : String := "day-" ++ toString day
def formatDateReadable (day : Nat) : String := "Day " ++ toString day

/-- Deletion-date strings computed in execute_immediate_actions (lines
156-166): present only when delayed actions exist and max delay is > 0. -/
def deletionDates (now : Nat) (delayed_actions : Option (List Action)) :
    Option (String × String) :=
  match delayed_actions with
  | none => none
  | some das =>
      if das.isEmpty then none
      else
        let md := maxDelay das
        if md > 0 then some (formatDateISO (now + md), formatDateReadable (now + md))
        else none

/-- Template substitution applied to title_format before the Plex call
(rule_engine.py lines 201-216). -/
def substTitleFormat (tf0 : String) (original_title : Option String)
    (dd : Option (String × String)) : String :=
  if tf0.length ≠ 0 then
    let tf1 :=
      match original_title with
      | some ot =>
          if ot.length ≠ 0 ∧ containsSub tf0 "{title}" = true then
            replaceStr tf0 "{title}" ot
          else tf0
      | none => tf0
    match dd with
    | some (iso, readable) =>
        replaceStr (replaceStr tf1 "{deletion_date}" iso)
          "{deletion_date_readable}" readable
    | none => tf1
  else tf0

/-- Body of one iteration of the immediate-action loop with dry_run false
(rule_engine.py lines 180-231): the contents of the per-action try block.
Returns the results appended (none for an unrecognized type, which appends
nothing), or .error e when the collaborator raised, plus the calls made. -/
def runImmediateBody (eng : Engine) (action : Action)
    (item_key item_type : String) (original_title : Option String)
    (dd : Option (String × String)) :
    Except String (List ActionResult) × List Call :=
  let t := action.type
  if t = "ADD_TO_COLLECTION" then
    let name := action.collection_name
    match eng.plex.add_to_collection item_key name item_type with
    | Except.error e => (Except.error e, [Call.addToCollection item_key name item_type])
    | Except.ok success =>
        (Except.ok [⟨t, if success then "success" else "failed",
            if success then "Added to collection " ++ name
            else "Failed to add to collection"⟩],
         [Call.addToCollection item_key name item_type])
  else if t = "REMOVE_FROM_COLLECTION" then
    let name := action.collection_name
    match eng.plex.remove_from_collection item_key name item_type with
    | Except.error e => (Except.error e, [Call.removeFromCollection item_key name item_type])
    | Except.ok success =>
        (Except.ok [⟨t, if success then "success" else "failed",
            if success then "Removed from collection " ++ name
            else "Failed to remove from collection"⟩],
         [Call.removeFromCollection item_key name item_type])
  else if t = "SET_TITLE_FORMAT" then
    let tf := substTitleFormat action.title_format original_title dd
    match eng.plex.set_title_format item_key tf item_type with
    | Except.error e => (Except.error e, [Call.setTitleFormat item_key tf item_type])
    | Except.ok success =>
        (Except.ok [⟨t, if success then "success" else "failed",
            if success then "Set title format to " ++ tf
            else "Failed to set title format"⟩],
         [Call.setTitleFormat item_key tf item_type])
  else if t = "CLEAR_TITLE_FORMAT" then
    match eng.plex.clear_title_format item_key item_type with
    | Except.error e => (Except.error e, [Call.clearTitleFormat item_key item_type])
    | Except.ok success =>
        (Except.ok [⟨t, if success then "success" else "failed",
            if success then "Cleared title format"
            else "Failed to clear title format"⟩],
         [Call.clearTitleFormat item_key item_type])
  else
    (Except.ok [], [])

/-- One iteration of the immediate-action loop with dry_run false: the try
together with its except clause, which converts a raised exception into a
failed result carrying str(e) (rule_engine.py lines 233-238). -/
def runImmediateAction (eng : Engine) (action : Action)
    (item_key item_type : String) (original_title : Option String)
    (dd : Option (String × String)) : List ActionResult × List Call :=
  match runImmediateBody eng action item_key item_type original_title dd with
  | (Except.error e, tr) => ([⟨action.type, "failed", e⟩], tr)
  | (Except.ok rs, tr) => (rs, tr)

/-- One iteration of the immediate-action loop including the dry_run
short-circuit at the top of the loop body (rule_engine.py lines 168-178). -/
def immediateStep (eng : Engine) (action : Action) (item_key item_type : String)
    (dry_run : Bool) (original_title : Option String)
    (dd : Option (String × String)) : List ActionResult × List Call :=
  if dry_run then
    ([⟨action.type, "dry_run", "Would execute " ++ action.type⟩], [])
  else
    runImmediateAction eng action item_key item_type original_title dd

def runImmediateList (eng : Engine) (item_key item_type : String)
    (dry_run : Bool) (original_title : Option String)
    (dd : Option (String × String)) : List Action → List ActionResult × List Call
  | [] => ([], [])
  | action :: rest =>
      let r := immediateStep eng action item_key item_type dry_run original_title dd
      let rs := runImmediateList eng item_key item_type dry_run original_title dd rest
      (r.1 ++ rs.1, r.2 ++ rs.2)

/-- RuleEngine.execute_immediate_actions (rule_engine.py lines 133-240).
Returns the list of per-action results and the collaborator calls made. -/
def execute_immediate_actions (eng : Engine) (actions : List Action)
    (item_key item_type : String) (dry_run : Bool)
    (delayed_actions : Option (List Action)) (item_data : Option Facts)
    (now : Nat) : List ActionResult × List Call :=
  runImmediateList eng item_key item_type dry_run
    (originalTitle item_type item_data) (deletionDates now delayed_actions) actions

/-- Characters before the first occurrence of a (non-empty) pattern; the whole
list when the pattern does not occur.  Models s.split(pat)[0]. -/
def takeBeforeSub : List Char → List Char → List Char
  | [], _ => []
  | c :: rest, pat =>
      if !pat.isEmpty && startsWithList (c :: rest) pat then []
      else c :: takeBeforeSub rest pat

/-- Show-title extraction for DELETE_VIA_SONARR:
item_title.split(" - Season")[0].strip() (rule_engine.py line 272). -/
def showTitleOf (item_title : String) : String :=
  trimStr (String.mk (takeBeforeSub item_title.toList " - Season".toList))

/-- Body of execute_delayed_action with dry_run false: the contents of the
try block (rule_engine.py lines 253-293) plus the fall-through Unknown
branch (line 298, which cannot raise).  .error e models a raised exception
reaching the except clause. -/
def execute_delayed_action_body (eng : Engine) (action : Action)
    (item_key item_title item_type : String) :
    Except String ActionResult × List Call :=
  let action_type := action.type
  if action_type = "DELETE_VIA_RADARR" then
    match eng.radarr with
    | none => (Except.ok ⟨action_type, "failed", "Radarr not configured"⟩, [])
    | some radarr =>
        match radarr.find_movie_by_title item_title with
        | Except.error e => (Except.error e, [Call.findMovieByTitle item_title])
        | Except.ok (some movie_id) =>
            match radarr.delete_movie movie_id true with
            | Except.error e =>
                (Except.error e,
                 [Call.findMovieByTitle item_title, Call.deleteMovie movie_id true])
            | Except.ok (success, message) =>
                (Except.ok ⟨action_type,
                    if success then "success" else "failed", message⟩,
                 [Call.findMovieByTitle item_title, Call.deleteMovie movie_id true])
        | Except.ok none =>
            -- Fallback to Plex deletion
            match eng.plex.delete_item item_key with
            | Except.error e =>
                (Except.error e,
                 [Call.findMovieByTitle item_title, Call.deleteItem item_key])
            | Except.ok success =>
                (Except.ok ⟨"DELETE_IN_PLEX",
                    if success then "success" else "failed",
                    "Movie not found in Radarr, deleted via Plex"⟩,
                 [Call.findMovieByTitle item_title, Call.deleteItem item_key])
  else if action_type = "DELETE_VIA_SONARR" then
    match eng.sonarr with
    | none => (Except.ok ⟨action_type, "failed", "Sonarr not configured"⟩, [])
    | some sonarr =>
        let show_title := showTitleOf item_title
        match sonarr.find_series_by_title show_title with
        | Except.error e => (Except.error e, [Call.findSeriesByTitle show_title])
        | Except.ok (some series_id) =>
            match sonarr.delete_series series_id true with
            | Except.error e =>
                (Except.error e,
                 [Call.findSeriesByTitle show_title, Call.deleteSeries series_id true])
            | Except.ok (success, message) =>
                (Except.ok ⟨action_type,
                    if success then "success" else "failed", message⟩,
                 [Call.findSeriesByTitle show_title, Call.deleteSeries series_id true])
        | Except.ok none =>
            match eng.plex.delete_item item_key with
            | Except.error e =>
                (Except.error e,
                 [Call.findSeriesByTitle show_title, Call.deleteItem item_key])
            | Except.ok success =>
                (Except.ok ⟨"DELETE_IN_PLEX",
                    if success then "success" else "failed",
                    "Series not found in Sonarr, deleted via Plex"⟩,
                 [Call.findSeriesByTitle show_title, Call.deleteItem item_key])
  else if action_type = "DELETE_IN_PLEX" then
    match eng.plex.delete_item item_key with
    | Except.error e => (Except.error e, [Call.deleteItem item_key])
    | Except.ok success =>
        (Except.ok ⟨action_type, if success then "success" else "failed",
            if success then "Deleted from Plex" else "Failed to delete from Plex"⟩,
         [Call.deleteItem item_key])
  else if action_type = "REMOVE_FROM_COLLECTION" then
    let name := action.collection_name
    match eng.plex.remove_from_collection item_key name item_type with
    | Except.error e => (Except.error e, [Call.removeFromCollection item_key name item_type])
    | Except.ok success =>
        (Except.ok ⟨action_type, if success then "success" else "failed",
            if success then "Removed from collection " ++ name
            else "Failed to remove from collection"⟩,
         [Call.removeFromCollection item_key name item_type])
  else if action_type = "CLEAR_TITLE_FORMAT" then
    match eng.plex.clear_title_format item_key item_type with
    | Except.error e => (Except.error e, [Call.clearTitleFormat item_key item_type])
    | Except.ok success =>
        (Except.ok ⟨action_type, if success then "success" else "failed",
            if success then "Cleared title format"
            else "Failed to clear title format"⟩,
         [Call.clearTitleFormat item_key item_type])
  else
    (Except.ok ⟨action_type, "failed", "Unknown action type"⟩, [])

/-- RuleEngine.execute_delayed_action (rule_engine.py lines 242-298): dry_run
short-circuit, then the try body with its except clause converting a raised
exception into a failed result carrying str(e). -/
def execute_delayed_action (eng : Engine) (action : Action)
    (item_key item_title item_type : String) (dry_run : Bool) :
    ActionResult × List Call :=
  if dry_run then
    (⟨action.type, "dry_run", "Would execute " ++ action.type⟩, [])
  else
    match execute_delayed_action_body eng action item_key item_title item_type with
    | (Except.error e, tr) => (⟨action.type, "failed", e⟩, tr)
    | (Except.ok r, tr) => (r, tr)

/-- Rule row as loaded in scan_rule / the scheduler, with conditions_json and
actions_json already decoded into their lists. -/
structure RuleRow where
  id : Nat
  name : String := ""
  logic : String := "AND"
  dry_run : Bool := true
  conditions : List Condition := []
  immediate_actions : List Action := []
  delayed_actions : List Action := []

/-- Candidate row (models.py Candidate).  actions_json holds the decoded
delayed-action list; none models a blob json.loads rejects.  The
display-only season columns (season_number, show_title, episode metadata)
are carried nowhere by the engine and are not modelled. -/
structure CandidateRow where
  rule_id : Nat
  plex_key : String
  item_type : String
  item_title : String
  reason : String := ""
  actions_json : Option (List Action) := some []
  scheduled_date : Option Nat := none
  cancelled : Bool := false
deriving DecidableEq

/-- String fact lookup with a default, modelling item_data.get(k) where the
scan reads key/title (always present in Plex facts). -/
def factStr (d : Facts) (k : String) : String :=
  match getFact d k with
  | some (Value.vstr s) => s
  | _ => ""

/-- Candidate construction of the movie branch of scan_rule
(tasks.py lines 96-111): one candidate per matching item carrying all
delayed actions; scheduled_date = now + max(delay_days) when that max is
positive, null otherwise. -/
def mkMovieCandidate (rule : RuleRow) (item_data : Facts) (now : Nat) : CandidateRow :=
  let max_delay := maxDelay rule.delayed_actions
  { rule_id := rule.id
    plex_key := factStr item_data "key"
    item_type := "movie"
    item_title := factStr item_data "title"
    reason := "Matched rule " ++ rule.name
    actions_json := some rule.delayed_actions
    scheduled_date := if max_delay > 0 then some (now + max_delay) else none }

/-- Per-item loop of the movie branch of scan_rule (tasks.py lines 85-113):
evaluate conditions; on match run immediate actions and, iff the rule has
delayed actions, add one candidate.  Returns the created candidates and the
collaborator calls made by the immediate phase. -/
def scan_rule_movies (eng : Engine) (rule : RuleRow) (now : Nat) :
    List Facts → List CandidateRow × List Call
  | [] => ([], [])
  | item_data :: rest =>
      let tail := scan_rule_movies eng rule now rest
      if evaluate_conditions rule.conditions rule.logic item_data then
        let ir := execute_immediate_actions eng rule.immediate_actions
            (factStr item_data "key") "movie" rule.dry_run
            (some rule.delayed_actions) (some item_data) now
        let cands :=
          if !rule.delayed_actions.isEmpty then [mkMovieCandidate rule item_data now]
          else []
        (cands ++ tail.1, ir.2 ++ tail.2)
      else tail

/-- ActionLog row created per delayed-action result (scheduler.py 75-84). -/
structure LogRow where
  rule_id : Nat
  plex_key : String
  item_type : String
  item_title : String
  action_type : String
  action_status : String
  details : String
deriving DecidableEq

/-- Persistent store visible to the scheduler tick. -/
structure DBState where
  rules : List RuleRow
  candidates : List CandidateRow
  logs : List LogRow

/-- Due-candidate selection of scheduler.py lines 54-57: cancelled = false
and scheduled_date <= now.  A null scheduled_date makes the SQL comparison
unknown, so such rows are never selected. -/
def isDue (c : CandidateRow) (now : Nat) : Bool :=
  match c.scheduled_date with
  | some d => decide (d ≤ now) && !c.cancelled
  | none => false

def findRule (rules : List RuleRow) (rid : Nat) : Option RuleRow :=
  rules.find? (fun r => r.id == rid)

/-- Processing of one due candidate inside the tick loop (scheduler.py lines
61-87): decode actions_json (.error models the json.loads exception),
resolve the owning rule's dry_run flag (true when the rule is gone), run
every stored action, and produce one log row per result. -/
def processCandidate (eng : Engine) (rules : List RuleRow) (c : CandidateRow) :
    Except String (List LogRow) :=
  match c.actions_json with
  | none => Except.error "invalid actions_json"
  | some actions =>
      let dry_run :=
        match findRule rules c.rule_id with
        | some r => r.dry_run
        | none => true
      Except.ok (actions.map (fun action =>
        let result := (execute_delayed_action eng action c.plex_key
            c.item_title c.item_type dry_run).1
        ⟨c.rule_id, c.plex_key, c.item_type, c.item_title,
         result.action_type, result.status, result.message⟩))

/-- Sequential processing of the due candidates; the first raised exception
aborts the remainder (the code's single try/except wraps the whole loop). -/
def processCandidates (eng : Engine) (rules : List RuleRow) :
    List CandidateRow → Except String (List LogRow)
  | [] => Except.ok []
  | c :: rest =>
      match processCandidate eng rules c with
      | Except.error e => Except.error e
      | Except.ok logs =>
          match processCandidates eng rules rest with
          | Except.error e => Except.error e
          | Except.ok more => Except.ok (logs ++ more)

/-- scheduler.execute_pending_candidates (scheduler.py lines 46-97): select
due candidates, process each (logging every action result and deleting the
candidate), commit at the end; any exception rolls the whole tick back,
leaving the store unchanged. -/
def execute_pending_candidates (eng : Engine) (st : DBState) (now : Nat) : DBState :=
  let due := st.candidates.filter (fun c => isDue c now)
  match processCandidates eng st.rules due with
  | Except.error _ => st
  | Except.ok new_logs =>
      { st with
        candidates := st.candidates.filter (fun c => !(isDue c now))
        logs := st.logs ++ new_logs }

/-- Collaborator behaviour whose every call succeeds, for concrete runs. -/
def plexOK : PlexBehavior :=
  ⟨fun _ _ _ => Except.ok true, fun _ _ _ => Except.ok true,
   fun _ _ _ => Except.ok true, fun _ _ => Except.ok true,
   fun _ => Except.ok true⟩

def engOK : Engine := ⟨plexOK, none, none⟩

/-- Collaborator behaviour mixing false returns and raised exceptions. -/
def plexFail : PlexBehavior :=
  ⟨fun _ _ _ => Except.ok false, fun _ _ _ => Except.error "boom",
   fun _ _ _ => Except.ok false, fun _ _ => Except.error "boom",
   fun _ => Except.error "boom"⟩

def engFail : Engine := ⟨plexFail, none, none⟩

def radarrFound : RadarrBehavior :=
  ⟨fun _ => Except.ok (some 7), fun _ _ => Except.ok (true, "movie deleted")⟩

def radarrMissing : RadarrBehavior :=
  ⟨fun _ => Except.ok none, fun _ _ => Except.ok (true, "movie deleted")⟩

def sonarrFound : SonarrBehavior :=
  ⟨fun _ => Except.ok (some 9), fun _ _ => Except.ok (true, "series deleted")⟩

def sonarrMissing : SonarrBehavior :=
  ⟨fun _ => Except.ok none, fun _ _ => Except.ok (true, "series deleted")⟩

def engRadarrFound : Engine := ⟨plexOK, some radarrFound, none⟩
def engRadarrMissing : Engine := ⟨plexOK, some radarrMissing, none⟩
def engSonarrFound : Engine := ⟨plexOK, none, some sonarrFound⟩
def engSonarrMissing : Engine := ⟨plexOK, none, some sonarrMissing⟩

/-- Concrete candidates and store for the scheduler properties. -/
def candDue : CandidateRow :=
  { rule_id := 1, plex_key := "k1", item_type := "movie", item_title := "T1",
    actions_json := some [⟨"DELETE_IN_PLEX", 0, "", ""⟩], scheduled_date := some 5 }

def candNull : CandidateRow :=
  { rule_id := 1, plex_key := "k2", item_type := "movie", item_title := "T2",
    actions_json := some [⟨"DELETE_IN_PLEX", 0, "", ""⟩], scheduled_date := none }

def stTick : DBState := ⟨[⟨1, "r", "AND", false, [], [], []⟩], [candDue, candNull], []⟩

/-- Candidate whose stored actions_json does not decode (json.loads raises). -/
def candBad : CandidateRow :=
  { rule_id := 1, plex_key := "kb", item_type := "movie", item_title := "B",
    actions_json := none, scheduled_date := some 1 }

def candGood : CandidateRow :=
  { rule_id := 1, plex_key := "kg", item_type := "movie", item_title := "G",
    actions_json := some [⟨"DELETE_IN_PLEX", 0, "", ""⟩], scheduled_date := some 1 }

def stAbort : DBState := ⟨[⟨1, "r", "AND", false, [], [], []⟩], [candBad, candGood], []⟩

/-- Concrete actions for evaluating the executors. -/
def actAdd : Action := ⟨"ADD_TO_COLLECTION", 0, "c", ""⟩
def actRem : Action := ⟨"REMOVE_FROM_COLLECTION", 0, "c", ""⟩
def actClear : Action := ⟨"CLEAR_TITLE_FORMAT", 0, "", ""⟩
def actDelPlex : Action := ⟨"DELETE_IN_PLEX", 0, "", ""⟩
def actRadarr : Action := ⟨"DELETE_VIA_RADARR", 7, "", ""⟩
def actSonarr : Action := ⟨"DELETE_VIA_SONARR", 7, "", ""⟩
def actUnknown : Action := ⟨"FROBNICATE", 0, "", ""⟩

/-- C1: for every rule with a non-empty delayed-action list, the movie scan
creates exactly one Candidate per item matching the rule's conditions (the
map over the filtered item list), each storing the full delayed-action list,
with scheduled_date = now + max(delay_days) and null when that max is 0;
with an empty delayed-action list no candidate is created at all. -/
theorem C1_scan_one_candidate_per_match (eng : Engine) (rule : RuleRow)
    (now : Nat) (movies : List Facts) :
    (scan_rule_movies eng rule now movies).1
      = (if rule.delayed_actions.isEmpty then []
         else (movies.filter
            (fun d => evaluate_conditions rule.conditions rule.logic d)).map
            (fun d => mkMovieCandidate rule d now))
    ∧ (∀ d : Facts,
        (mkMovieCandidate rule d now).actions_json = some rule.delayed_actions
        ∧ (mkMovieCandidate rule d now).scheduled_date
            = (if maxDelay rule.delayed_actions > 0
               then some (now + maxDelay rule.delayed_actions) else none)) := by
  constructor
  · induction movies with
    | nil => cases hd : rule.delayed_actions.isEmpty <;> simp [scan_rule_movies]
    | cons m rest ih =>
        by_cases hm : evaluate_conditions rule.conditions rule.logic m
        · cases hd : rule.delayed_actions.isEmpty <;>
            simp [scan_rule_movies, hm, hd, hd ▸ ih]
        · simpa [scan_rule_movies, hm] using ih
  · intro d
    exact ⟨rfl, rfl⟩

/-- C2 counterexample: with an absent lastPlayedDays fact the code compares
against the finite sentinel 999999, not against plus infinity: the operator
"<" with N = 5 evaluates to true (the claim requires false for every N), and
">" with N = 1000000 evaluates to false (the claim requires true for every
finite N). -/
theorem C2_counterexample :
    evaluate_condition ⟨"movie.lastPlayedDays", "<", some (Value.vnum 5)⟩ [] = true
    ∧ evaluate_condition ⟨"movie.lastPlayedDays", ">", some (Value.vnum 1000000)⟩ []
        = false := by
  constructor <;> decide

/-- C2 (amended): when the fact is absent and the (dot-stripped) field name
contains lastPlayedDays or lastWatchedEpisodeDays, evaluate_condition
substitutes the sentinel 999999 for the ">"/">=" comparisons and 0 for the
others: ">" N holds iff N < 999999, and "<" N holds iff N > 0. -/
theorem C2_absent_fact_sentinel (field : String) (n : Rat) (d : Facts)
    (habs : getFact d (fieldKey field) = none)
    (hname : containsSub (fieldKey field) "lastPlayedDays" = true
        ∨ containsSub (fieldKey field) "lastWatchedEpisodeDays" = true) :
    evaluate_condition ⟨field, ">", some (Value.vnum n)⟩ d
        = decide ((999999 : Rat) > n)
    ∧ evaluate_condition ⟨field, ">=", some (Value.vnum n)⟩ d
        = decide ((999999 : Rat) ≥ n)
    ∧ evaluate_condition ⟨field, "<", some (Value.vnum n)⟩ d
        = decide ((0 : Rat) < n)
    ∧ evaluate_condition ⟨field, "<=", some (Value.vnum n)⟩ d
        = decide ((0 : Rat) ≤ n) := by
  refine ⟨?_, ?_, ?_, ?_⟩ <;> simp [evaluate_condition, habs, hname, toNum]

/-- C2 witness: the amended statement evaluated at the concrete field
movie.lastPlayedDays with empty facts and N = 5. -/
theorem C2_absent_fact_sentinel_witness :
    evaluate_condition ⟨"movie.lastPlayedDays", "<", some (Value.vnum 5)⟩ []
        = decide ((0 : Rat) < 5)
    ∧ evaluate_condition ⟨"movie.lastPlayedDays", ">", some (Value.vnum 5)⟩ []
        = decide ((999999 : Rat) > 5) := by
  have h := C2_absent_fact_sentinel "movie.lastPlayedDays" 5 [] (by decide)
    (Or.inl (by decide))
  exact ⟨h.2.2.1, h.1⟩

/-- C3 counterexample: list-valued IN membership is case-sensitive: the value
list containing "Keep" does not match the fact list containing "keep", while
the all-lowercase value list does, refuting case-insensitivity of the
membership comparison. -/
theorem C3_counterexample :
    evaluate_condition ⟨"inCollections", "IN", some (Value.vlist ["Keep"])⟩
        [("inCollections", Value.vlist ["keep"])] = false
    ∧ evaluate_condition ⟨"inCollections", "IN", some (Value.vlist ["keep"])⟩
        [("inCollections", Value.vlist ["keep"])] = true := by
  constructor <;> decide

/-- C3 (amended): on a list-of-strings fact, IN with a single string value is
case-insensitive and trims whitespace on both sides; IN/NOT_IN with a list
value use exact (case-sensitive, untrimmed) membership of the non-empty
value elements; NOT_IN with a single string value trims the value but
compares it exactly against the untransformed fact elements. -/
theorem C3_membership_semantics (field : String) (fv : List String) (d : Facts)
    (hfv : getFact d (fieldKey field) = some (Value.vlist fv)) :
    (∀ s : String, s.length ≠ 0 →
        evaluate_condition ⟨field, "IN", some (Value.vstr s)⟩ d
          = fv.any (fun c => decide (c.length ≠ 0)
              && lowerStr (trimStr s) == lowerStr (trimStr c)))
    ∧ (∀ vs : List String, vs ≠ [] →
        evaluate_condition ⟨field, "IN", some (Value.vlist vs)⟩ d
          = vs.any (fun x => decide (x.length ≠ 0) && fv.contains x))
    ∧ (∀ s : String, s.length ≠ 0 →
        evaluate_condition ⟨field, "NOT_IN", some (Value.vstr s)⟩ d
          = !(fv.contains (trimStr s)))
    ∧ (∀ vs : List String, vs ≠ [] →
        evaluate_condition ⟨field, "NOT_IN", some (Value.vlist vs)⟩ d
          = !(vs.any (fun x => decide (x.length ≠ 0) && fv.contains x))) := by
  refine ⟨fun s hs => ?_, fun vs hvs => ?_, fun s hs => ?_, fun vs hvs => ?_⟩
  · simp [evaluate_condition, hfv, truthy, valueStr, hs]
  · simp [evaluate_condition, hfv, truthy, valueStr, hvs]
  · simp [evaluate_condition, hfv, truthy, valueStr, hs]
  · simp [evaluate_condition, hfv, truthy, valueStr, hvs]

/-- C3 witness: the amended membership semantics evaluated on the concrete
fact list containing "keep". -/
theorem C3_membership_semantics_witness :
    evaluate_condition ⟨"inCollections", "IN", some (Value.vstr " KEEP ")⟩
        [("inCollections", Value.vlist ["keep"])] = true
    ∧ evaluate_condition ⟨"inCollections", "NOT_IN", some (Value.vstr "Keep")⟩
        [("inCollections", Value.vlist ["keep"])] = true := by
  have h := C3_membership_semantics "inCollections" ["keep"]
    [("inCollections", Value.vlist ["keep"])] (by decide)
  constructor
  · rw [h.1 " KEEP " (by decide)]; decide
  · rw [h.2.2.1 "Keep" (by decide)]; decide

/-- C4 counterexample: the logic token "or" (whose uppercase form is "OR" but
which differs from the token "OR") does not behave as "AND": on a condition
pair evaluating to true and false it returns true, where "AND" returns
false. -/
theorem C4_counterexample :
    evaluate_conditions [⟨"flag", "IS_TRUE", none⟩, ⟨"flag", "IS_FALSE", none⟩]
        "or" [("flag", Value.vbool true)] = true
    ∧ evaluate_conditions [⟨"flag", "IS_TRUE", none⟩, ⟨"flag", "IS_FALSE", none⟩]
        "AND" [("flag", Value.vbool true)] = false := by
  constructor <;> decide

/-- Helper: any of a mapped boolean list is the any of the function. -/
theorem anyMapId {α : Type} (l : List α) (f : α → Bool) :
    (l.map f).any id = l.any f := by
  induction l with
  | nil => rfl
  | cons a rest ih => simp [ih]

/-- Helper: all of a mapped boolean list is the all of the function. -/
theorem allMapId {α : Type} (l : List α) (f : α → Bool) :
    (l.map f).all id = l.all f := by
  induction l with
  | nil => rfl
  | cons a rest ih => simp [ih]

/-- C4 (amended): an empty condition list yields false for every logic token;
on a non-empty list, any token whose uppercase form is "OR" behaves as OR
(true iff some condition holds) and every other token behaves as AND (true
iff all conditions hold). -/
theorem C4_logic_semantics (conds : List Condition) (logic : String) (d : Facts)
    (hne : conds ≠ []) :
    evaluate_conditions [] logic d = false
    ∧ (upperStr logic = "OR" →
        evaluate_conditions conds logic d
          = conds.any (fun c => evaluate_condition c d))
    ∧ (upperStr logic ≠ "OR" →
        evaluate_conditions conds logic d
          = conds.all (fun c => evaluate_condition c d)) := by
  refine ⟨rfl, fun hor => ?_, fun hand => ?_⟩
  · simp [evaluate_conditions, hne, hor, anyMapId]
  · simp [evaluate_conditions, hne, hand, allMapId]

/-- C4 witness: the amended logic semantics evaluated at concrete tokens. -/
theorem C4_logic_semantics_witness :
    evaluate_conditions [⟨"flag", "IS_TRUE", none⟩] "anything"
        [("flag", Value.vbool true)] = true := by
  have h := C4_logic_semantics [⟨"flag", "IS_TRUE", none⟩] "anything"
    [("flag", Value.vbool true)] (by decide)
  rw [h.2.2 (by decide)]
  decide

/-- Helper: the dry-run immediate loop makes no calls and every appended
result is a dry_run record. -/
theorem runImmediateList_dry (eng : Engine) (item_key item_type : String)
    (ot : Option String) (dd : Option (String × String)) (actions : List Action) :
    (runImmediateList eng item_key item_type true ot dd actions).2 = []
    ∧ (runImmediateList eng item_key item_type true ot dd actions).1.all
        (fun r => r.status == "dry_run") = true := by
  induction actions with
  | nil => exact ⟨rfl, rfl⟩
  | cons a rest ih =>
      constructor
      · simp [runImmediateList, immediateStep, ih.1]
      · simp [runImmediateList, immediateStep, ih.2]

/-- C5: with dry_run true, neither the immediate executor nor the delayed
executor makes any collaborator call, and every produced result has status
dry_run. -/
theorem C5_dry_run_frame (eng : Engine) (actions : List Action)
    (item_key item_type item_title : String) (da : Option (List Action))
    (idata : Option Facts) (now : Nat) (action : Action) :
    (execute_immediate_actions eng actions item_key item_type true da idata now).2 = []
    ∧ (execute_immediate_actions eng actions item_key item_type true da idata now).1.all
        (fun r => r.status == "dry_run") = true
    ∧ (execute_delayed_action eng action item_key item_title item_type true).2 = []
    ∧ (execute_delayed_action eng action item_key item_title item_type true).1.status
        = "dry_run" := by
  refine ⟨?_, ?_, rfl, rfl⟩
  · exact (runImmediateList_dry eng item_key item_type _ _ actions).1
  · exact (runImmediateList_dry eng item_key item_type _ _ actions).2

/-- Helper: the immediate loop is compositional over list append — each
action is processed independently of the outcomes of the others. -/
theorem runImmediateList_append (eng : Engine) (item_key item_type : String)
    (dry_run : Bool) (ot : Option String) (dd : Option (String × String))
    (xs ys : List Action) :
    runImmediateList eng item_key item_type dry_run ot dd (xs ++ ys)
      = ((runImmediateList eng item_key item_type dry_run ot dd xs).1
          ++ (runImmediateList eng item_key item_type dry_run ot dd ys).1,
         (runImmediateList eng item_key item_type dry_run ot dd xs).2
          ++ (runImmediateList eng item_key item_type dry_run ot dd ys).2) := by
  induction xs with
  | nil => simp [runImmediateList]
  | cons a rest ih => simp [runImmediateList, ih]

/-- C6: with dry_run false, the immediate executor processes the action list
compositionally (a failure in a prefix cannot abort the suffix); a raised
collaborator exception in one action becomes a failed result carrying its
message; a false collaborator return becomes a failed result with the
corresponding failure message; and the delayed executor converts a raised
exception into a failed result instead of propagating it. -/
theorem C6_failure_isolation (eng : Engine) (xs ys : List Action)
    (item_key item_type item_title : String) (da : Option (List Action))
    (idata : Option Facts) (now : Nat) (action : Action) (e : String) :
    (execute_immediate_actions eng (xs ++ ys) item_key item_type false da idata now
      = ((execute_immediate_actions eng xs item_key item_type false da idata now).1
          ++ (execute_immediate_actions eng ys item_key item_type false da idata now).1,
         (execute_immediate_actions eng xs item_key item_type false da idata now).2
          ++ (execute_immediate_actions eng ys item_key item_type false da idata now).2))
    ∧ (∀ (ot : Option String) (dd : Option (String × String)) (tr : List Call),
        runImmediateBody eng action item_key item_type ot dd = (Except.error e, tr) →
        runImmediateAction eng action item_key item_type ot dd
          = ([⟨action.type, "failed", e⟩], tr))
    ∧ (∀ tr : List Call,
        execute_delayed_action_body eng action item_key item_title item_type
            = (Except.error e, tr) →
        execute_delayed_action eng action item_key item_title item_type false
          = (⟨action.type, "failed", e⟩, tr))
    ∧ (action.type = "ADD_TO_COLLECTION" →
        eng.plex.add_to_collection item_key action.collection_name item_type
            = Except.ok false →
        ∀ (ot : Option String) (dd : Option (String × String)),
        runImmediateAction eng action item_key item_type ot dd
          = ([⟨action.type, "failed", "Failed to add to collection"⟩],
             [Call.addToCollection item_key action.collection_name item_type]))
    ∧ (action.type = "REMOVE_FROM_COLLECTION" →
        eng.plex.remove_from_collection item_key action.collection_name item_type
            = Except.ok false →
        ∀ (ot : Option String) (dd : Option (String × String)),
        runImmediateAction eng action item_key item_type ot dd
          = ([⟨action.type, "failed", "Failed to remove from collection"⟩],
             [Call.removeFromCollection item_key action.collection_name item_type]))
    ∧ (action.type = "SET_TITLE_FORMAT" →
        ∀ (ot : Option String) (dd : Option (String × String)),
        eng.plex.set_title_format item_key
            (substTitleFormat action.title_format ot dd) item_type = Except.ok false →
        runImmediateAction eng action item_key item_type ot dd
          = ([⟨action.type, "failed", "Failed to set title format"⟩],
             [Call.setTitleFormat item_key
                (substTitleFormat action.title_format ot dd) item_type]))
    ∧ (action.type = "CLEAR_TITLE_FORMAT" →
        eng.plex.clear_title_format item_key item_type = Except.ok false →
        ∀ (ot : Option String) (dd : Option (String × String)),
        runImmediateAction eng action item_key item_type ot dd
          = ([⟨action.type, "failed", "Failed to clear title format"⟩],
             [Call.clearTitleFormat item_key item_type])) := by
  refine ⟨?_, ?_, ?_, ?_, ?_, ?_, ?_⟩
  · exact runImmediateList_append eng item_key item_type false _ _ xs ys
  · intro ot dd tr h
    simp [runImmediateAction, h]
  · intro tr h
    simp [execute_delayed_action, h]
  · intro ht hcall ot dd
    simp [runImmediateAction, runImmediateBody, ht, hcall]
  · intro ht hcall ot dd
    simp [runImmediateAction, runImmediateBody, ht, hcall]
  · intro ht ot dd hcall
    simp [runImmediateAction, runImmediateBody, ht, hcall]
  · intro ht hcall ot dd
    simp [runImmediateAction, runImmediateBody, ht, hcall]

/-- C6 witness: with a collaborator that raises on remove and returns false
on add, both actions in the list produce failed results, the second is
still attempted after the first fails, and a raising delayed deletion is
converted to a failed result. -/
theorem C6_failure_isolation_witness :
    (execute_immediate_actions engFail ([actRem] ++ [actAdd]) "k" "movie"
        false none none 0).1
      = [⟨"REMOVE_FROM_COLLECTION", "failed", "boom"⟩,
         ⟨"ADD_TO_COLLECTION", "failed", "Failed to add to collection"⟩]
    ∧ execute_delayed_action engFail actDelPlex "k" "T" "movie" false
      = (⟨"DELETE_IN_PLEX", "failed", "boom"⟩, [Call.deleteItem "k"])
    ∧ runImmediateAction engFail actAdd "k" "movie" none none
      = ([⟨"ADD_TO_COLLECTION", "failed", "Failed to add to collection"⟩],
         [Call.addToCollection "k" "c" "movie"]) := by
  have h := C6_failure_isolation engFail [actRem] [actAdd] "k" "movie" "T"
    none none 0 actRem "boom"
  have h2 := C6_failure_isolation engFail [] [] "k" "movie" "T"
    none none 0 actDelPlex "boom"
  have h3 := C6_failure_isolation engFail [] [] "k" "movie" "T"
    none none 0 actAdd "boom"
  refine ⟨?_, ?_, ?_⟩
  · rw [congrArg Prod.fst h.1]
    decide
  · exact h2.2.2.1 [Call.deleteItem "k"] rfl
  · exact h3.2.2.2.1 rfl rfl none none

/-- Helper: when every due candidate's stored actions decode, the tick's
processing loop raises nothing. -/
theorem processCandidates_ok (eng : Engine) (rules : List RuleRow)
    (l : List CandidateRow)
    (h : l.all (fun x => !x.actions_json.isNone) = true) :
    ∃ logs, processCandidates eng rules l = Except.ok logs := by
  induction l with
  | nil => exact ⟨[], rfl⟩
  | cons c rest ih =>
      simp only [List.all_cons, Bool.and_eq_true] at h
      obtain ⟨logs, hl⟩ := ih h.2
      cases hpc : processCandidate eng rules c with
      | error e =>
          cases hj : c.actions_json with
          | none => exact absurd h.1 (by simp [hj])
          | some acts => simp [processCandidate, hj] at hpc
      | ok l1 => exact ⟨l1 ++ logs, by simp [processCandidates, hpc, hl]⟩

/-- C7: the tick selects exactly the candidates with cancelled = false and a
non-null scheduled_date at or before now, and (when every due candidate's
stored actions decode) deletes each selected candidate after execution,
whatever statuses its action results carried. -/
theorem C7_scheduler_tick (eng : Engine) (st : DBState) (now : Nat)
    (c : CandidateRow)
    (hok : (st.candidates.filter (fun x => isDue x now)).all
        (fun x => !x.actions_json.isNone) = true) :
    (isDue c now = true ↔
        c.cancelled = false ∧ ∃ d, c.scheduled_date = some d ∧ d ≤ now)
    ∧ (c.scheduled_date = none → isDue c now = false)
    ∧ (execute_pending_candidates eng st now).candidates
        = st.candidates.filter (fun x => !(isDue x now)) := by
  refine ⟨?_, ?_, ?_⟩
  · cases hs : c.scheduled_date with
    | none => simp [isDue, hs]
    | some d0 => simp [isDue, hs, and_comm]
  · intro hnone
    simp [isDue, hnone]
  · obtain ⟨logs, hl⟩ := processCandidates_ok eng st.rules _ hok
    simp [execute_pending_candidates, hl]

/-- C7 witness: a store with one due and one null-dated candidate; the tick
deletes exactly the due one. -/
theorem C7_scheduler_tick_witness :
    (execute_pending_candidates engOK stTick 10).candidates = [candNull]
    ∧ isDue candNull 10 = false := by
  have h := C7_scheduler_tick engOK stTick 10 candNull (by decide)
  constructor
  · rw [h.2.2]
    decide
  · exact h.2.1 rfl

/-- C8: contrary to the claim, a failure while processing one due candidate
aborts the whole tick: with two due candidates of which the first has an
undecodable actions_json, the tick leaves the store untouched — the second
due candidate is neither executed, logged, nor deleted, although processing
it alone succeeds. -/
theorem C8_one_failure_aborts_tick :
    isDue candBad 1 = true
    ∧ isDue candGood 1 = true
    ∧ execute_pending_candidates engOK stAbort 1 = stAbort
    ∧ processCandidate engOK stAbort.rules candGood
        = Except.ok [⟨1, "kg", "movie", "G", "DELETE_IN_PLEX", "success",
            "Deleted from Plex"⟩] := by
  refine ⟨by decide, by decide, rfl, rfl⟩

/-- C9: a delayed DELETE_VIA_RADARR / DELETE_VIA_SONARR with the manager
configured and dry_run false requests deletion-with-files there when the
title lookup succeeds, keeping the original action type in the single
result; when the lookup finds nothing it deletes directly in Plex instead
and the single result's action_type is the fallback DELETE_IN_PLEX. -/
theorem C9_delete_via_manager_fallback (eng : Engine) (a : Action)
    (item_key item_title item_type : String)
    (rb : RadarrBehavior) (sb : SonarrBehavior) :
    (eng.radarr = some rb → a.type = "DELETE_VIA_RADARR" →
      (∀ movie_id success message,
          rb.find_movie_by_title item_title = Except.ok (some movie_id) →
          rb.delete_movie movie_id true = Except.ok (success, message) →
          execute_delayed_action eng a item_key item_title item_type false
            = (⟨"DELETE_VIA_RADARR",
                if success then "success" else "failed", message⟩,
               [Call.findMovieByTitle item_title, Call.deleteMovie movie_id true]))
      ∧ (∀ success,
          rb.find_movie_by_title item_title = Except.ok none →
          eng.plex.delete_item item_key = Except.ok success →
          execute_delayed_action eng a item_key item_title item_type false
            = (⟨"DELETE_IN_PLEX", if success then "success" else "failed",
                "Movie not found in Radarr, deleted via Plex"⟩,
               [Call.findMovieByTitle item_title, Call.deleteItem item_key])))
    ∧ (eng.sonarr = some sb → a.type = "DELETE_VIA_SONARR" →
      (∀ series_id success message,
          sb.find_series_by_title (showTitleOf item_title)
              = Except.ok (some series_id) →
          sb.delete_series series_id true = Except.ok (success, message) →
          execute_delayed_action eng a item_key item_title item_type false
            = (⟨"DELETE_VIA_SONARR",
                if success then "success" else "failed", message⟩,
               [Call.findSeriesByTitle (showTitleOf item_title),
                Call.deleteSeries series_id true]))
      ∧ (∀ success,
          sb.find_series_by_title (showTitleOf item_title) = Except.ok none →
          eng.plex.delete_item item_key = Except.ok success →
          execute_delayed_action eng a item_key item_title item_type false
            = (⟨"DELETE_IN_PLEX", if success then "success" else "failed",
                "Series not found in Sonarr, deleted via Plex"⟩,
               [Call.findSeriesByTitle (showTitleOf item_title),
                Call.deleteItem item_key]))) := by
  constructor
  · intro hr ht
    constructor
    · intro movie_id success message hfind hdel
      simp [execute_delayed_action, execute_delayed_action_body, ht, hr,
        hfind, hdel]
    · intro success hfind hdel
      simp [execute_delayed_action, execute_delayed_action_body, ht, hr,
        hfind, hdel]
  · intro hs ht
    constructor
    · intro series_id success message hfind hdel
      simp [execute_delayed_action, execute_delayed_action_body, ht, hs,
        hfind, hdel]
    · intro success hfind hdel
      simp [execute_delayed_action, execute_delayed_action_body, ht, hs,
        hfind, hdel]

/-- C9 witness: concrete engines where the Radarr/Sonarr lookup finds the
item (deletion-with-files requested there, original action type kept) and
where it does not (direct Plex deletion, fallback type DELETE_IN_PLEX). -/
theorem C9_delete_via_manager_fallback_witness :
    execute_delayed_action engRadarrFound actRadarr "k" "T" "movie" false
      = (⟨"DELETE_VIA_RADARR", "success", "movie deleted"⟩,
         [Call.findMovieByTitle "T", Call.deleteMovie 7 true])
    ∧ execute_delayed_action engRadarrMissing actRadarr "k" "T" "movie" false
      = (⟨"DELETE_IN_PLEX", "success", "Movie not found in Radarr, deleted via Plex"⟩,
         [Call.findMovieByTitle "T", Call.deleteItem "k"])
    ∧ execute_delayed_action engSonarrFound actSonarr "k" "S - Season 2" "season" false
      = (⟨"DELETE_VIA_SONARR", "success", "series deleted"⟩,
         [Call.findSeriesByTitle "S", Call.deleteSeries 9 true])
    ∧ execute_delayed_action engSonarrMissing actSonarr "k" "S - Season 2" "season" false
      = (⟨"DELETE_IN_PLEX", "success", "Series not found in Sonarr, deleted via Plex"⟩,
         [Call.findSeriesByTitle "S", Call.deleteItem "k"]) := by
  have h1 := (C9_delete_via_manager_fallback engRadarrFound actRadarr "k" "T"
    "movie" radarrFound sonarrFound).1 rfl rfl
  have h2 := (C9_delete_via_manager_fallback engRadarrMissing actRadarr "k" "T"
    "movie" radarrMissing sonarrFound).1 rfl rfl
  have h3 := (C9_delete_via_manager_fallback engSonarrFound actSonarr "k"
    "S - Season 2" "season" radarrFound sonarrFound).2 rfl rfl
  have h4 := (C9_delete_via_manager_fallback engSonarrMissing actSonarr "k"
    "S - Season 2" "season" radarrFound sonarrMissing).2 rfl rfl
  refine ⟨?_, ?_, ?_, ?_⟩
  · exact h1.1 7 true "movie deleted" rfl rfl
  · exact h2.2 true rfl rfl
  · have := h3.1 9 true "series deleted" rfl rfl
    rw [this]
    decide
  · have := h4.2 true rfl rfl
    rw [this]
    decide

/-- C10: a delayed action of an unrecognized type executed with dry_run
false yields a failed result with message Unknown action type and makes no
collaborator call, whereas the immediate phase silently skips such an
action, producing no result entry at all. -/
theorem C10_unknown_action_type (eng : Engine) (a : Action)
    (item_key item_title item_type : String) (ot : Option String)
    (dd : Option (String × String))
    (hd : a.type ∉ ["DELETE_VIA_RADARR", "DELETE_VIA_SONARR", "DELETE_IN_PLEX",
        "REMOVE_FROM_COLLECTION", "CLEAR_TITLE_FORMAT"])
    (hi : a.type ∉ ["ADD_TO_COLLECTION", "REMOVE_FROM_COLLECTION",
        "SET_TITLE_FORMAT", "CLEAR_TITLE_FORMAT"]) :
    execute_delayed_action eng a item_key item_title item_type false
      = (⟨a.type, "failed", "Unknown action type"⟩, [])
    ∧ runImmediateAction eng a item_key item_type ot dd = ([], []) := by
  simp only [List.mem_cons, List.mem_singleton, not_or] at hd hi
  obtain ⟨hd1, hd2, hd3, hd4, hd5⟩ := hd
  obtain ⟨hi1, hi2, hi3, hi4⟩ := hi
  constructor
  · simp [execute_delayed_action, execute_delayed_action_body,
      hd1, hd2, hd3, hd4, hd5]
  · simp [runImmediateAction, runImmediateBody, hi1, hi2, hi3, hi4]

/-- C10 witness: the unrecognized type FROBNICATE evaluated concretely. -/
theorem C10_unknown_action_type_witness :
    execute_delayed_action engOK actUnknown "k" "T" "movie" false
      = (⟨"FROBNICATE", "failed", "Unknown action type"⟩, [])
    ∧ runImmediateAction engOK actUnknown "k" "movie" none none = ([], []) :=
  C10_unknown_action_type engOK actUnknown "k" "T" "movie" none none
    (by decide) (by decide)

end ShelfLife
